import Mathlib

/-!
Shallow embedding of the UPRISE content server (src/server.js, with the
bcrypt variant in src/unnamed/part_000 as a second observed code path).

The server keeps a SQLite table `content` keyed by the UNIQUE triple
(subject, feature, chapter) with `id INTEGER PRIMARY KEY AUTOINCREMENT`,
a singleton `admin_settings` row holding `password_hash`, and an
`uploads/` directory holding the uploaded blobs.  We model the database
and the uploads directory as explicit state and each HTTP handler as a
state-passing function translated from the source.
-/

/-- A row of the `content` table (src/server.js lines 38-49).
`created_at` and `updated_at` are `DATETIME DEFAULT CURRENT_TIMESTAMP`;
we model timestamps as naturals. -/
structure Row where
  id : Nat
  subject : String
  feature : String
  chapter : Int
  content_type : String
  file_path : Option String
  text_content : Option String
  created_at : Nat
  updated_at : Nat
deriving Repr, DecidableEq

/-- The server's persistent state: the `content` table, the SQLite
AUTOINCREMENT counter (every id ever used is `< nextId`), the singleton
`admin_settings.password_hash` value (none when the row is absent), the
`uploads/` directory contents, and the current value of
CURRENT_TIMESTAMP. -/
structure ServerState where
  content : List Row
  nextId : Nat
  password_hash : Option String
  uploads : List String
  now : Nat
deriving Repr, DecidableEq

/-- Outcome of a handler: HTTP status together with the JSON `success`
flag of the response body. -/
structure ApiResponse where
  status : Nat
  success : Bool
deriving Repr, DecidableEq

/-- The WHERE clause `subject = ? AND feature = ? AND chapter = ?`. -/
def keyMatch (s f : String) (c : Int) (r : Row) : Bool :=
  r.subject == s && r.feature == f && r.chapter == c

/-- `defaultPassword` from initDatabase (src/server.js line 57). -/
def defaultPassword : String := "admin123"

/-- initDatabase (src/server.js lines 37-64): when no `admin_settings`
row exists, insert one whose `password_hash` column holds the plaintext
`defaultPassword` (the INSERT stores the password value itself, no
hashing). -/
def initDatabase (st : ServerState) : ServerState :=
  match st.password_hash with
  | none => { st with password_hash := some defaultPassword }
  | some _ => st

/-- POST /api/verify-password (src/server.js lines 96-110): read the
stored `password_hash` and compare it to the candidate with `===`
(exact string equality). -/
def verifyPassword (st : ServerState) (password : String) : ApiResponse :=
  match st.password_hash with
  | some h => if h == password then ⟨200, true⟩ else ⟨200, false⟩
  | none => ⟨200, false⟩

/-- POST /api/change-password (src/server.js lines 113-132): compare the
stored `password_hash` to `oldPassword` with `===`; on match, UPDATE the
stored value to `newPassword` (stored as given, no hashing). -/
def changePassword (st : ServerState) (oldPassword newPassword : String) :
    ServerState × ApiResponse :=
  match st.password_hash with
  | some h =>
    if h == oldPassword then
      ({ st with password_hash := some newPassword }, ⟨200, true⟩)
    else
      (st, ⟨200, false⟩)
  | none => (st, ⟨200, false⟩)

/-- The row a bare `INSERT INTO content (subject, feature, chapter,
content_type, file_path / text_content, updated_at)` produces: `id` is
the fresh AUTOINCREMENT value and `created_at` takes its DEFAULT
CURRENT_TIMESTAMP. -/
def freshRow (st : ServerState) (s f : String) (c : Int)
    (ctype : String) (fp tc : Option String) : Row :=
  { id := st.nextId, subject := s, feature := f, chapter := c,
    content_type := ctype, file_path := fp, text_content := tc,
    created_at := st.now, updated_at := st.now }

/-- SQLite `INSERT OR REPLACE INTO content (subject, feature, chapter,
content_type, file_path / text_content, updated_at) VALUES (...)`:
the UNIQUE(subject, feature, chapter) conflict deletes any existing row
for the key, then a brand-new row is inserted; columns not named in the
INSERT take their defaults, so `id` is a fresh AUTOINCREMENT value and
`created_at` is CURRENT_TIMESTAMP again. -/
def upsertRow (st : ServerState) (s f : String) (c : Int)
    (ctype : String) (fp tc : Option String) : ServerState :=
  { st with
    content := st.content.filter (fun r => ! keyMatch s f c r) ++
      [freshRow st s f c ctype fp tc],
    nextId := st.nextId + 1 }

/-- POST /api/save-text (src/server.js lines 162-179): INSERT OR REPLACE
with content_type 'text' and text_content from the request body.  The
handler reads only subject, feature, chapter, content from the request
and touches nothing else: in particular it never reads a credential and
never unlinks a file. -/
def saveText (st : ServerState) (s f : String) (c : Int) (content : String) :
    ServerState × ApiResponse :=
  (upsertRow st s f c "text" none (some content), ⟨200, true⟩)

/-- POST /api/upload-file (src/server.js lines 135-159): multer has
already stored the blob under a fresh unique name in `uploads/` before
the handler body runs; the handler then does INSERT OR REPLACE with
content_type 'file' and file_path '/uploads/' + filename.  No credential
is read and no old blob is unlinked. -/
def uploadFile (st : ServerState) (s f : String) (c : Int) (filePath : String) :
    ServerState × ApiResponse :=
  let st1 := { st with uploads := st.uploads ++ [filePath] }
  (upsertRow st1 s f c "file" (some filePath) none, ⟨200, true⟩)

/-- GET /api/content/:subject/:feature/:chapter (src/server.js lines
182-205): `db.get` of the single row matching the key. -/
def getContent (st : ServerState) (s f : String) (c : Int) : Option Row :=
  st.content.find? (keyMatch s f c)

/-- DELETE /api/content/:id (src/server.js lines 218-245), translated
step by step: (1) `db.get` the row by id; (2) if it has a file_path and
the file exists, `fs.unlinkSync` it — this happens BEFORE the SQL
DELETE; (3) `db.run DELETE FROM content WHERE id = ?` — `deleteFails`
models that statement failing, in which case the handler answers 500 and
the table is unchanged, but step (2) has already run; otherwise the
handler answers `success: true` whether or not any row was deleted. -/
def deleteContent (st : ServerState) (i : Nat) (deleteFails : Bool) :
    ServerState × ApiResponse :=
  let row := st.content.find? (fun r => r.id == i)
  let st1 :=
    match row with
    | some r =>
      match r.file_path with
      | some fp => { st with uploads := st.uploads.filter (fun b => b != fp) }
      | none => st
    | none => st
  if deleteFails then
    (st1, ⟨500, false⟩)
  else
    ({ st1 with content := st1.content.filter (fun r => r.id != i) }, ⟨200, true⟩)

/-- A blob is an orphan when it sits in `uploads/` but no content row
references it (spec glossary: "Orphan blob"). -/
def isOrphan (st : ServerState) (b : String) : Bool :=
  st.uploads.contains b && st.content.all (fun r => r.file_path != some b)

/-- Database well-formedness maintained by SQLite: every id in the table
is below the AUTOINCREMENT counter, and ids are pairwise distinct
(id is the PRIMARY KEY). -/
def wellFormed (st : ServerState) : Prop :=
  (∀ r ∈ st.content, r.id < st.nextId) ∧ (st.content.map Row.id).Nodup

/-! Concrete states used as failing inputs and witnesses. -/

/-- A TEXT-typed content row, id 1, created at time 10. -/
def textRow : Row :=
  { id := 1, subject := "math", feature := "notes", chapter := 1,
    content_type := "text", file_path := none, text_content := some "A",
    created_at := 10, updated_at := 10 }

/-- A FILE-typed content row, id 1, referencing the blob /uploads/a.pdf. -/
def fileRow : Row :=
  { id := 1, subject := "math", feature := "notes", chapter := 1,
    content_type := "file", file_path := some "/uploads/a.pdf", text_content := none,
    created_at := 10, updated_at := 10 }

/-- Fresh server state: empty content table, default admin credential. -/
def stEmpty : ServerState :=
  { content := [], nextId := 1, password_hash := some "admin123",
    uploads := [], now := 5 }

/-- State holding one TEXT item. -/
def stText : ServerState :=
  { content := [textRow], nextId := 2, password_hash := some "admin123",
    uploads := [], now := 20 }

/-- State holding one FILE item whose blob is in the uploads directory. -/
def stFile : ServerState :=
  { content := [fileRow], nextId := 2, password_hash := some "admin123",
    uploads := ["/uploads/a.pdf"], now := 20 }

/-! Helper lemmas about the upsert. -/

lemma find?_filter_not_append {α : Type} (p : α → Bool) (l : List α) (x : α)
    (hx : p x = true) :
    ((l.filter fun a => ! p a) ++ [x]).find? p = some x := by
  induction l with
  | nil => simp [List.find?, hx]
  | cons a t ih =>
    by_cases h : p a = true
    · simp [List.filter_cons, h, ih]
    · simp only [Bool.not_eq_true] at h
      simp [List.filter_cons, h, List.find?_cons, ih]

lemma countP_filter_not_append {α : Type} (p : α → Bool) (l : List α) (x : α)
    (hx : p x = true) :
    ((l.filter fun a => ! p a) ++ [x]).countP p = 1 := by
  induction l with
  | nil => simp [List.countP, List.countP.go, hx]
  | cons a t ih =>
    by_cases h : p a = true
    · simp [List.filter_cons, h, ih]
    · simp only [Bool.not_eq_true] at h
      simp [List.filter_cons, h, List.countP_cons, ih]

lemma keyMatch_freshRow (st : ServerState) (s f : String) (c : Int)
    (ctype : String) (fp tc : Option String) :
    keyMatch s f c (freshRow st s f c ctype fp tc) = true := by
  simp [keyMatch, freshRow]

lemma getContent_upsertRow (st : ServerState) (s f : String) (c : Int)
    (ctype : String) (fp tc : Option String) :
    getContent (upsertRow st s f c ctype fp tc) s f c =
      some (freshRow st s f c ctype fp tc) := by
  unfold getContent upsertRow
  exact find?_filter_not_append (keyMatch s f c) st.content _
    (keyMatch_freshRow st s f c ctype fp tc)

lemma countP_upsertRow (st : ServerState) (s f : String) (c : Int)
    (ctype : String) (fp tc : Option String) :
    (upsertRow st s f c ctype fp tc).content.countP (keyMatch s f c) = 1 := by
  unfold upsertRow
  exact countP_filter_not_append (keyMatch s f c) st.content _
    (keyMatch_freshRow st s f c ctype fp tc)

/-- C3: for every Slot Key, at most one live Content Item exists: calling
put_text on the same key with "A" then "B" leaves exactly one content row
for that key, whose text is "B", never two rows.  The INSERT OR REPLACE
upsert together with UNIQUE(subject, feature, chapter) discards the old
row, so the count is exactly one and get returns text "B". -/
theorem C3_one_item_per_key (st : ServerState) (s f : String) (c : Int) :
    ((saveText (saveText st s f c "A").1 s f c "B").1.content.countP
        (keyMatch s f c) = 1) ∧
    ((getContent (saveText (saveText st s f c "A").1 s f c "B").1 s f c).map
        Row.text_content = some (some "B")) := by
  constructor
  · exact countP_upsertRow _ s f c "text" none (some "B")
  · rw [show (saveText (saveText st s f c "A").1 s f c "B").1 =
        upsertRow (saveText st s f c "A").1 s f c "text" none (some "B") from rfl,
      getContent_upsertRow]
    rfl

/-- C9: for every valid Slot Key (non-empty subject and feature, integer
chapter) and every string text including the empty string, put_text
followed by get on the same key returns a Content Item whose text equals
the stored text and whose type is TEXT. -/
theorem C9_put_text_then_get (st : ServerState) (s f : String) (c : Int)
    (text : String) (hs : s ≠ "") (hf : f ≠ "") :
    ∃ r : Row, getContent (saveText st s f c text).1 s f c = some r ∧
      r.text_content = some text ∧ r.content_type = "text" := by
  refine ⟨freshRow st s f c "text" none (some text), ?_, rfl, rfl⟩
  exact getContent_upsertRow st s f c "text" none (some text)

/-- Witness for C9 at the concrete key (math, notes, 1) with the empty
text, starting from the empty store. -/
theorem C9_witness :
    ∃ r : Row, getContent (saveText stEmpty "math" "notes" 1 "").1
        "math" "notes" 1 = some r ∧
      r.text_content = some "" ∧ r.content_type = "text" :=
  C9_put_text_then_get stEmpty "math" "notes" 1 "" (by decide) (by decide)

/-- C4 counterexample: in the state `stText` the item at key
(math, notes, 1) has created_at = 10; replacing it via put_text at time
20 yields an item with created_at = 20, not 10 — the INSERT OR REPLACE
recreates the row, so created_at is NOT preserved across a replace,
refuting the claim. -/
theorem C4_counterexample :
    (getContent stText "math" "notes" 1).map Row.created_at = some 10 ∧
    (getContent (saveText stText "math" "notes" 1 "B").1
        "math" "notes" 1).map Row.created_at = some 20 := by
  constructor
  · decide
  · decide

/-- C4 amended: a put_text on a key (fresh or replacing) always leaves
the item for that key with created_at equal to the operation time:
created_at is reset on every replace (the upsert recreates the row with
its column defaults), not preserved from first creation. -/
theorem C4_created_at_reset (st : ServerState) (s f : String) (c : Int)
    (text : String) :
    (getContent (saveText st s f c text).1 s f c).map Row.created_at =
      some st.now := by
  rw [show (saveText st s f c text).1 =
      upsertRow st s f c "text" none (some text) from rfl,
    getContent_upsertRow]
  rfl

/-- C2 counterexample: the save-text request carries no credential at
all, yet the handler mutates the content table and reports success — a
state mutation with no preceding successful verify for that request,
refuting the claim. -/
theorem C2_counterexample :
    (saveText stEmpty "math" "notes" 1 "hi").2.success = true ∧
    (saveText stEmpty "math" "notes" 1 "hi").1.content ≠ stEmpty.content := by
  constructor
  · rfl
  · decide

lemma deleteContent_response_ok (st : ServerState) (i : Nat) :
    (deleteContent st i false).2 = ⟨200, true⟩ := by
  simp only [deleteContent]
  cases hfind : st.content.find? (fun r => r.id == i) with
  | none => rfl
  | some r =>
    cases hfp : r.file_path with
    | none => rfl
    | some fp => rfl

lemma deleteContent_credential_independent (st : ServerState) (i : Nat)
    (dfail : Bool) (pw : Option String) :
    deleteContent { st with password_hash := pw } i dfail =
      ({ (deleteContent st i dfail).1 with password_hash := pw },
        (deleteContent st i dfail).2) := by
  simp only [deleteContent]
  cases hfind : st.content.find? (fun r => r.id == i) with
  | none => cases dfail <;> rfl
  | some r =>
    simp only []
    cases hfp : r.file_path with
    | none => cases dfail <;> rfl
    | some fp => cases dfail <;> rfl

/-- C2 amended: only the credential rotation (change-password) is gated
by a verification of the supplied old password; none of the Content
Slot Store mutations is credential-gated: upload-file, save-text and
delete each report success on a request carrying no credential and each
produces the same response and the same store (apart from the untouched
credential field itself) whatever credential is stored — none of the
three handlers reads one. -/
theorem C2_only_rotation_gated (st : ServerState) (oldPw newPw : String)
    (s f : String) (c : Int) (text fpath : String) (i : Nat)
    (dfail : Bool) (pw : Option String) :
    (((changePassword st oldPw newPw).2.success = true) ↔
      ((verifyPassword st oldPw).success = true)) ∧
    ((saveText { st with password_hash := pw } s f c text).2.success = true ∧
      (saveText { st with password_hash := pw } s f c text).1 =
        { (saveText st s f c text).1 with password_hash := pw }) ∧
    ((uploadFile { st with password_hash := pw } s f c fpath).2.success = true ∧
      (uploadFile { st with password_hash := pw } s f c fpath).1 =
        { (uploadFile st s f c fpath).1 with password_hash := pw }) ∧
    ((deleteContent st i false).2.success = true ∧
      deleteContent { st with password_hash := pw } i dfail =
        ({ (deleteContent st i dfail).1 with password_hash := pw },
          (deleteContent st i dfail).2)) := by
  refine ⟨?_, ⟨rfl, rfl⟩, ⟨rfl, rfl⟩, ?_,
    deleteContent_credential_independent st i dfail pw⟩
  · cases h : st.password_hash with
    | none => simp [changePassword, verifyPassword, h]
    | some stored =>
      by_cases he : stored == oldPw
      · simp [changePassword, verifyPassword, h, he]
      · simp [changePassword, verifyPassword, h, he]
  · rw [deleteContent_response_ok]

/-- C1: evaluation of the code at the failing input. The state `stFile`
holds a FILE item at key (math, notes, 1) whose blob /uploads/a.pdf is
the only upload.  A put_text on that key (POST /api/save-text) replaces
the item but unlinks nothing, so afterwards the blob is still in the
Blob Repository while no Content Item references it: an orphan remains,
contradicting the claim that the replaced blob is removed. -/
theorem C1_orphan_after_replace :
    isOrphan (saveText stFile "math" "notes" 1 "hello").1 "/uploads/a.pdf"
      = true := by
  decide

/-- Bootstrap state before initDatabase has run: no credential record. -/
def stBoot : ServerState :=
  { content := [], nextId := 1, password_hash := none, uploads := [], now := 0 }

/-- C7: evaluation of the code at the failing input.  initDatabase
stores the plaintext default password "admin123" itself in the
password_hash column (no hash), and the verify handler accepts exactly
the candidate that is byte-for-byte equal to the stored value — the
comparison is exact string equality against the stored plaintext, not a
one-way-hash comparison, contradicting the claim. -/
theorem C7_plaintext_comparison :
    (initDatabase stBoot).password_hash = some defaultPassword ∧
    defaultPassword = "admin123" ∧
    (verifyPassword (initDatabase stBoot) "admin123").success = true := by
  refine ⟨rfl, rfl, ?_⟩
  decide

/-- C6 counterexample: the empty store holds no item with id 5, yet
DELETE /api/content/5 answers status 200 with success true — the same
response as a successful delete — not a NotFound result, refuting the
claim. -/
theorem C6_counterexample :
    stEmpty.content.find? (fun r => r.id == 5) = none ∧
    deleteContent stEmpty 5 false = (stEmpty, ⟨200, true⟩) := by
  constructor
  · decide
  · decide

lemma deleteContent_of_missing (st : ServerState) (i : Nat)
    (h : st.content.find? (fun r => r.id == i) = none) :
    deleteContent st i false = (st, ⟨200, true⟩) := by
  have hall : ∀ r ∈ st.content, (r.id != i) = true := by
    intro r hr
    have hne := List.find?_eq_none.mp h r hr
    simpa [bne] using hne
  simp only [deleteContent, h]
  rw [List.filter_eq_self.mpr hall]
  rfl

/-- C6 amended: deleting an id that identifies no existing Content Item
is reported as success (status 200, success true) with the store left
unchanged — indistinguishable from a successful delete; there is no
NotFound result on this path. -/
theorem C6_delete_missing_id (st : ServerState) (i : Nat)
    (h : st.content.find? (fun r => r.id == i) = none) :
    deleteContent st i false = (st, ⟨200, true⟩) :=
  deleteContent_of_missing st i h

/-- Witness for C6 at the concrete state holding one item with id 1 and
the missing id 7. -/
theorem C6_witness :
    deleteContent stText 7 false = (stText, ⟨200, true⟩) :=
  C6_delete_missing_id stText 7 (by decide)

/-- C5 counterexample: on `stFile`, DELETE /api/content/1 whose SQL
DELETE fails answers failure (success false), yet the blob
/uploads/a.pdf is already gone from the uploads directory while the row
is still in the table — the blob was removed BEFORE the metadata write,
and a failed metadata write leaves partial state, refuting the claim. -/
theorem C5_counterexample :
    (deleteContent stFile 1 true).2.success = false ∧
    (deleteContent stFile 1 true).1.uploads = [] ∧
    (deleteContent stFile 1 true).1.content = [fileRow] := by
  refine ⟨rfl, ?_, ?_⟩
  · decide
  · decide

/-- C5 amended: the delete handler unlinks the referenced blob before
running the SQL DELETE; when an item with the given id exists and is
FILE-typed, a failing metadata delete leaves the content table unchanged
but the blob already removed from the uploads directory (partial
state). -/
theorem C5_blob_removed_before_commit (st : ServerState) (i : Nat)
    (r : Row) (fp : String)
    (hfind : st.content.find? (fun x => x.id == i) = some r)
    (hfp : r.file_path = some fp) :
    (deleteContent st i true).1.content = st.content ∧
    (deleteContent st i true).1.uploads =
      st.uploads.filter (fun b => b != fp) ∧
    (deleteContent st i true).2.success = false := by
  simp [deleteContent, hfind, hfp]

/-- Witness for C5 at the concrete state `stFile`, id 1, blob
/uploads/a.pdf. -/
theorem C5_witness :
    (deleteContent stFile 1 true).1.content = stFile.content ∧
    (deleteContent stFile 1 true).1.uploads =
      stFile.uploads.filter (fun b => b != "/uploads/a.pdf") ∧
    (deleteContent stFile 1 true).2.success = false :=
  C5_blob_removed_before_commit stFile 1 fileRow "/uploads/a.pdf"
    (by decide) (by decide)

/-- C8 counterexample: with the stored credential "admin123", the call
rotate("admin123", "admin123") succeeds (the old password verifies), yet
afterwards verify("admin123") — verify(old) — still returns true, since
old and new coincide; this refutes the universally quantified claim that
after every successful rotate(old, new), verify(old) returns false. -/
theorem C8_counterexample :
    (changePassword stEmpty "admin123" "admin123").2.success = true ∧
    (verifyPassword (changePassword stEmpty "admin123" "admin123").1
        "admin123").success = true := by
  constructor
  · rfl
  · rfl

/-- C8 amended: for all old and new with old ≠ new, rotate(old, new)
succeeds if and only if verify(old) is true at the time of the call; and
when verify(old) holds, after the rotate verify(old) returns false and
verify(new) returns true. -/
theorem C8_rotate_semantics (st : ServerState) (oldPw newPw : String)
    (hne : oldPw ≠ newPw) :
    (((changePassword st oldPw newPw).2.success = true) ↔
      ((verifyPassword st oldPw).success = true)) ∧
    ((verifyPassword st oldPw).success = true →
      (verifyPassword (changePassword st oldPw newPw).1 oldPw).success
          = false ∧
      (verifyPassword (changePassword st oldPw newPw).1 newPw).success
          = true) := by
  have hnewold : (newPw == oldPw) = false := by
    simp only [beq_eq_false_iff_ne]
    exact Ne.symm hne
  cases h : st.password_hash with
  | none => simp [changePassword, verifyPassword, h]
  | some stored =>
    by_cases he : (stored == oldPw) = true
    · refine ⟨by simp [changePassword, verifyPassword, h, he], fun _ => ⟨?_, ?_⟩⟩
      · simp [changePassword, verifyPassword, h, he, hnewold]
      · simp [changePassword, verifyPassword, h, he]
    · simp only [Bool.not_eq_true] at he
      simp [changePassword, verifyPassword, h, he]

/-- Witness for C8 at the concrete rotation from "admin123" to
"newpass" starting from the default credential. -/
theorem C8_witness :
    (verifyPassword (changePassword stEmpty "admin123" "newpass").1
        "admin123").success = false ∧
    (verifyPassword (changePassword stEmpty "admin123" "newpass").1
        "newpass").success = true :=
  (C8_rotate_semantics stEmpty "admin123" "newpass" (by decide)).2 (by decide)

/-- C10 counterexample: starting from `stText` (one item, id 1), a
replacing put_text leaves no row with id 1, yet DELETE /api/content/1
with the stale id answers status 200 with success true — the same
response as a real deletion, not a NotFound result, refuting the
claim's "is NotFound" part. -/
theorem C10_counterexample :
    ((saveText stText "math" "notes" 1 "B").1.content.find?
        (fun r => r.id == 1) = none) ∧
    (deleteContent (saveText stText "math" "notes" 1 "B").1 1 false).2 =
      ⟨200, true⟩ := by
  constructor
  · decide
  · decide

/-- C10 amended: in a well-formed store, replacing the item for a key
assigns the new item a fresh id strictly greater than the old one; the
old id then resolves to no item, and a delete using the stale id leaves
the current item (and the whole table) untouched — though the handler
answers success, not NotFound. -/
theorem C10_fresh_id_stale_id (st : ServerState) (s f : String) (c : Int)
    (text : String) (r : Row) (hwf : wellFormed st)
    (hget : getContent st s f c = some r) :
    ((getContent (saveText st s f c text).1 s f c).map Row.id =
        some st.nextId ∧ r.id < st.nextId) ∧
    ((saveText st s f c text).1.content.find?
        (fun x => x.id == r.id) = none) ∧
    (deleteContent (saveText st s f c text).1 r.id false =
      ((saveText st s f c text).1, ⟨200, true⟩)) := by
  have hmem : r ∈ st.content := List.mem_of_find?_eq_some hget
  have hkey : keyMatch s f c r = true := List.find?_some hget
  have hlt : r.id < st.nextId := hwf.1 r hmem
  have hnone : (saveText st s f c text).1.content.find?
      (fun x => x.id == r.id) = none := by
    apply List.find?_eq_none.mpr
    intro x hx
    simp only [saveText, upsertRow, List.mem_append, List.mem_filter,
      List.mem_singleton] at hx
    rcases hx with ⟨hxmem, hxkey⟩ | hxfresh
    · intro hbeq
      have hid : x.id = r.id := eq_of_beq hbeq
      have hxr : x = r :=
        List.inj_on_of_nodup_map hwf.2 hxmem hmem hid
      rw [hxr, hkey] at hxkey
      simp at hxkey
    · intro hbeq
      have hid : x.id = r.id := eq_of_beq hbeq
      rw [hxfresh] at hid
      simp only [freshRow] at hid
      omega
  refine ⟨⟨?_, hlt⟩, hnone, ?_⟩
  · rw [show (saveText st s f c text).1 =
        upsertRow st s f c "text" none (some text) from rfl,
      getContent_upsertRow]
    rfl
  · exact deleteContent_of_missing (saveText st s f c text).1 r.id hnone

/-- Witness for C10 at the concrete state `stText`: the item with id 1
at key (math, notes, 1) is replaced; the new id is 2, id 1 resolves to
nothing, and a delete with the stale id 1 leaves the table unchanged. -/
theorem C10_witness :
    ((getContent (saveText stText "math" "notes" 1 "B").1
        "math" "notes" 1).map Row.id = some stText.nextId ∧
      textRow.id < stText.nextId) ∧
    ((saveText stText "math" "notes" 1 "B").1.content.find?
        (fun x => x.id == textRow.id) = none) ∧
    (deleteContent (saveText stText "math" "notes" 1 "B").1 textRow.id false =
      ((saveText stText "math" "notes" 1 "B").1, ⟨200, true⟩)) :=
  C10_fresh_id_stale_id stText "math" "notes" 1 "B" textRow
    ⟨by decide, by decide⟩ (by decide)
